import Mathlib

/-!
Verification of the `python_db_management` repository: a shallow embedding of
the list-processing, string-formatting and pipeline-control logic of the four
scripts (`00_serverdb_main_resp_info.py`, `00_update_inventory.py`,
`05_sql_backup_info_collector.py`, `08_sqlserver_connect_list_execute.py`),
together with theorems settling the frozen claims about them.

Server names and file lines are modelled as `List Char`; text produced by
Python f-strings is modelled by explicit list concatenation.  Remote calls
(ODBC / ADOMD connections) are modelled by an outcome oracle per server, and
each per-server loop is a fold over the server list threading its in-memory
accumulators, exactly as the scripts thread their global lists.
-/

/-- The single-quote character, `chr(39)`. -/
def singleQuote : Char := Char.ofNat 39

/-- Python whitespace characters relevant to `str.strip()` on the inputs at
hand (the scripts strip file lines and query results). -/
def isPySpace (c : Char) : Bool :=
  c = ' ' || c = '\n' || c = '\t' || c = '\r'

/-- Model of Python `str.strip()`: drop leading and trailing whitespace. -/
def pyStrip (l : List Char) : List Char :=
  ((l.dropWhile isPySpace).reverse.dropWhile isPySpace).reverse

/-- Model of Python `str.upper()` on the ASCII server names processed here. -/
def pyUpper (l : List Char) : List Char :=
  l.map Char.toUpper

/-- Model of `item.strip().upper()`, the normalisation applied to every line
read from the AD servers file. -/
def normalizeName (l : List Char) : List Char :=
  pyUpper (pyStrip l)

/-- Model of the Python substring test `needle in hay` on strings. -/
def containsSeq (needle : List Char) : List Char → Bool
  | [] => needle.isEmpty
  | c :: rest => needle.isPrefixOf (c :: rest) || containsSeq needle rest

/-- Constant `CLUSTER_KEYWORD = 'CLU'` of `00_serverdb_main_resp_info.py`. -/
def CLUSTER_KEYWORD : List Char := ("CLU".toList)

/-- From `categorize_ad_servers` (both scripts):
`[item.strip().upper() for item in ad_servers if CLUSTER_KEYWORD not in item]`. -/
def nonClusterObjects (adServers : List (List Char)) : List (List Char) :=
  (adServers.filter (fun item => !(containsSeq CLUSTER_KEYWORD item))).map normalizeName

/-- From `categorize_ad_servers`:
`[item.strip().upper() for item in ad_servers if CLUSTER_KEYWORD in item]`. -/
def clusterObjects (adServers : List (List Char)) : List (List Char) :=
  (adServers.filter (fun item => containsSeq CLUSTER_KEYWORD item)).map normalizeName

/-- The list comprehension inside `find_untracked_servers` of
`00_serverdb_main_resp_info.py`:
`[server for server in non_cluster_objects if server not in tracked_sql_servers
  and server not in olap_servers and server not in servers_to_review]`. -/
def untrackedOf (nonCluster trackedSql olapServers serversToReview : List (List Char)) :
    List (List Char) :=
  nonCluster.filter (fun server =>
    !(decide (server ∈ trackedSql)) && !(decide (server ∈ olapServers))
      && !(decide (server ∈ serversToReview)))

/-- `find_untracked_servers` itself: when the computed list is empty the
script prints a message and calls `exit()` (modelled as `none`); otherwise the
list is printed and returned. -/
def find_untracked_servers (nonCluster trackedSql olapServers serversToReview :
    List (List Char)) : Option (List (List Char)) :=
  let untracked := untrackedOf nonCluster trackedSql olapServers serversToReview
  if untracked = [] then none else some untracked

/-- `suffix_segment = server_name[-3:]` from `get_environment`. -/
def lastThree (l : List Char) : List Char :=
  l.drop (l.length - 3)

/-- The `suffix_to_environment` dict of `get_environment`, in insertion
order. -/
def suffixToEnvironment : List (List Char × List Char) :=
  [(("D".toList), ("DES".toList)), (("P".toList), ("PRE".toList)),
   (("E".toList), ("PRO".toList)), (("DES".toList), ("DES".toList)),
   (("PRE".toList), ("PRE".toList)), (("PRO".toList), ("PRO".toList))]

/-- `get_environment` of `00_serverdb_main_resp_info.py`: the first dict key
that is a substring of the last-three-character segment wins
(`next((suffix_to_environment[suffix] for suffix in suffix_to_environment
if suffix in suffix_segment), 'N/A')`). -/
def get_environment (serverName : List Char) : List Char :=
  let seg := lastThree serverName
  match suffixToEnvironment.find? (fun kv => containsSeq kv.1 seg) with
  | some kv => kv.2
  | none => ("N/A".toList)

/-! ### INSERT-statement generation (claim C3)

`read_csv_and_insert_data` of `00_update_inventory.py` renders each dataframe
cell; a cell read back from the merged CSV is either missing (`NaN`) or has a
string image `str(val)` (pandas renders integers as their digits and floats
with a decimal point, and both images are what `str(val)` interpolates).  A
cell is therefore modelled as `nan` or the `str()` image of its value. -/

inductive Cell where
  | nan : Cell
  | strv : List Char → Cell
deriving DecidableEq

/-- Digit test, `c.isDigit`. -/
def isDigitChar (c : Char) : Bool := '0' ≤ c && c ≤ '9'

/-- Value of a digit string. -/
def digitsToNat (l : List Char) : Nat :=
  l.foldl (fun acc c => 10 * acc + (c.toNat - ('0').toNat)) 0

/-- Decimal digits of a natural number. -/
def natDigits (n : Nat) : List Char := Nat.toDigits 10 n

/-- Model of Python `str(int(float(s)))` on the plain decimal numerals
(`[+-]? digits [. digits]?`, at least one digit) that reach the
`BackupRetDays` branch; any other string makes `float()` raise, modelled as
`none`.  Truncation is toward zero, and `-0` prints as `0`. -/
def pyIntFloatTrunc (s : List Char) : Option (List Char) :=
  let signBody : Bool × List Char :=
    match s with
    | c :: rest => if c = '-' then (true, rest) else if c = '+' then (false, rest) else (false, s)
    | [] => (false, [])
  let neg := signBody.1
  let body := signBody.2
  let intPart := body.takeWhile isDigitChar
  let rest := body.drop intPart.length
  let ok : Bool :=
    match rest with
    | [] => !intPart.isEmpty
    | c :: frac => c = '.' && frac.all isDigitChar && (!intPart.isEmpty || !frac.isEmpty)
  if ok then
    let v := digitsToNat intPart
    some (if neg && v ≠ 0 then '-' :: natDigits v else natDigits v)
  else none

/-- The column name whose values are rendered unquoted, `"BackupRetDays"`. -/
def backupRetDaysCol : List Char := ("BackupRetDays".toList)

/-- Model of `str(val).replace("'", "''")`. -/
def escapeQuotes (s : List Char) : List Char :=
  s.flatMap (fun c => if c = singleQuote then [singleQuote, singleQuote] else [c])

/-- One rendered value of `read_csv_and_insert_data`:
missing values become `''`; `BackupRetDays` is rendered as a bare integer;
every other value is enclosed in single quotes with embedded quotes
doubled. -/
def renderValue (col : List Char) : Cell → Option (List Char)
  | Cell.nan => some [singleQuote, singleQuote]
  | Cell.strv s =>
      if col = backupRetDaysCol then pyIntFloatTrunc s
      else some (singleQuote :: escapeQuotes s ++ [singleQuote])

/-- Rendered values of one row, `zip(df.columns, row)` (zip truncates to the
shorter list); a raised exception propagates as `none`. -/
def renderRow : List (List Char) → List Cell → Option (List (List Char))
  | [], _ => some []
  | _, [] => some []
  | c :: cs, v :: vs =>
      match renderValue c v, renderRow cs vs with
      | some rv, some rest => some (rv :: rest)
      | _, _ => none

/-- Python `', '.join(...)`. -/
def commaSpaceJoin (ls : List (List Char)) : List Char :=
  List.intercalate (", ".toList) ls

/-- One INSERT statement of the refresh flow:
`f"INSERT INTO {table_name_check} ({columns}) VALUES ({values_str});"`. -/
def buildInsertRefresh (tname : List Char) (cols : List (List Char)) (row : List Cell) :
    Option (List Char) :=
  (renderRow cols row).map (fun vs =>
    ("INSERT INTO ".toList) ++ tname ++ (" (".toList) ++ commaSpaceJoin cols
      ++ (") VALUES (".toList) ++ commaSpaceJoin vs ++ (");".toList))

/-- Constant `table_name` of `00_serverdb_main_resp_info.py`. -/
def REG_TABLE_NAME : List Char :=
  ("[ADMINISTRACION].[dbo].[ServerDB_Main_Resp_INFO]".toList)

/-- Constant `BACKUP_RETENTION_DAYS = 15`. -/
def BACKUP_RETENTION_DAYS : Nat := 15

/-- Head of the registration INSERT template, up to `VALUES (`. -/
def regInsertHead : List Char :=
  ("INSERT INTO ".toList) ++ REG_TABLE_NAME
    ++ (" (ServerName, DatabaseName, RespContact1, Email1, RespContact2, Email2, Env, SQLVersion, InstanceType, Lstnr, BackupRetDays, ServiceDesk, RelAppServ, Comments, Maintenance) VALUES (".toList)

/-- Tail of the registration INSERT template, from the comma after the
database field to the closing `');`. -/
def regInsertTail (nm email env sqlVersion saHadr : List Char) : List Char :=
  (", ".toList)
    ++ [singleQuote] ++ nm ++ [singleQuote] ++ (", ".toList)
    ++ [singleQuote] ++ email ++ [singleQuote] ++ (", ".toList)
    ++ ("''".toList) ++ (", ".toList) ++ ("''".toList) ++ (", ".toList)
    ++ [singleQuote] ++ env ++ [singleQuote] ++ (", ".toList)
    ++ [singleQuote] ++ sqlVersion ++ [singleQuote] ++ (", ".toList)
    ++ [singleQuote] ++ saHadr ++ [singleQuote] ++ (", ".toList)
    ++ ("''".toList) ++ (", ".toList)
    ++ natDigits BACKUP_RETENTION_DAYS ++ (", ".toList)
    ++ ("''".toList) ++ (", ".toList) ++ ("''".toList) ++ (", ".toList)
    ++ ("''".toList) ++ (", ".toList) ++ ("''".toList) ++ (");".toList)

/-- The registration-flow INSERT statement of `execute_tasks` in
`00_serverdb_main_resp_info.py`: the f-string interpolates every field
verbatim between single quotes (`VALUES ('{server}', '{db}', '{name}',
'{email}', '', '', '{env}', '{sql_version}', '{sa_hadr}', '',
{BACKUP_RETENTION_DAYS}, '', '', '', '');`). -/
def buildRegInsert (server db nm email env sqlVersion saHadr : List Char) : List Char :=
  regInsertHead
    ++ [singleQuote] ++ server ++ [singleQuote] ++ (", ".toList)
    ++ [singleQuote] ++ db ++ [singleQuote]
    ++ regInsertTail nm email env sqlVersion saHadr

/-- The registration INSERT as the claim describes it (every interpolated
value with embedded single quotes doubled); written from the claim's words,
for comparison with `buildRegInsert`. -/
def buildRegInsertClaimed (server db nm email env sqlVersion saHadr : List Char) : List Char :=
  buildRegInsert (escapeQuotes server) (escapeQuotes db) (escapeQuotes nm)
    (escapeQuotes email) (escapeQuotes env) (escapeQuotes sqlVersion) (escapeQuotes saHadr)

/-! ### Refresh-run SQL trace (claim C4) -/

/-- A SQL action executed through the cursor. -/
inductive SqlAction where
  | truncate : List Char → SqlAction
  | insert : List Char → SqlAction
deriving DecidableEq

/-- Statement generation of `read_csv_and_insert_data`: one statement per
dataframe row, aborting (exception) if any row fails to render. -/
def genRows (tname : List Char) (cols : List (List Char)) :
    List (List Cell) → Option (List (List Char))
  | [] => some []
  | r :: rest =>
      match buildInsertRefresh tname cols r, genRows tname cols rest with
      | some s, some ss => some (s :: ss)
      | _, _ => none

/-- Full statement generation: `df.insert(0, "GeneratedDateTime",
current_datetime)` prepends a constant column, then one INSERT is generated
per row. -/
def genInsertStatements (tname dt : List Char) (cols : List (List Char))
    (rows : List (List Cell)) : Option (List (List Char)) :=
  genRows tname (("GeneratedDateTime".toList) :: cols)
    (rows.map (fun r => Cell.strv dt :: r))

/-- The SQL actions `read_csv_and_insert_data` executes, in order: the
TRUNCATE first, then every generated INSERT.  If generation raises, the
function aborts before connecting and nothing is executed. -/
def read_csv_and_insert_trace (tname dt : List Char) (cols : List (List Char))
    (rows : List (List Cell)) : List SqlAction :=
  match genInsertStatements tname dt cols rows with
  | none => []
  | some stmts => SqlAction.truncate tname :: stmts.map SqlAction.insert

/-- Effect of one action on the inventory table, modelled as the list of its
(inserted-statement) rows. -/
def applySql (tbl : List (List Char)) : SqlAction → List (List Char)
  | SqlAction.truncate _ => []
  | SqlAction.insert s => tbl ++ [s]

/-- Running a list of actions against a table state. -/
def runSql (init : List (List Char)) (acts : List SqlAction) : List (List Char) :=
  acts.foldl applySql init

/-! ### Per-server collection loops (claims C5, C7, C10) -/

/-- Outcome of one server's connection/query in `retrieve_dbs` (the three
`except` arms catch `pyodbc.Error`, `ConnectionError` and any other
exception). -/
inductive DbOutcome where
  | ok : List (List Char) → DbOutcome
  | odbcErr : List Char → DbOutcome
  | connErr : List Char → DbOutcome
  | otherErr : List Char → DbOutcome
deriving DecidableEq

/-- One iteration of the `retrieve_dbs` loop over `(file lines, conn_error)`:
an empty result writes the sentinel line, rows are written one per line, and
each exception appends its formatted record to `conn_error` and continues. -/
def retrieveStep (outcome : List Char → DbOutcome)
    (st : List (List Char) × List (List Char)) (server : List Char) :
    List (List Char) × List (List Char) :=
  match outcome server with
  | DbOutcome.ok rows =>
      (st.1 ++ (if rows = [] then [server ++ (",No database found".toList)]
                else rows.map (fun r => server ++ (",".toList) ++ r)), st.2)
  | DbOutcome.odbcErr m => (st.1, st.2 ++ [server ++ (" - ODBC Error - ".toList) ++ m])
  | DbOutcome.connErr m => (st.1, st.2 ++ [server ++ (" - Connection Error- ".toList) ++ m])
  | DbOutcome.otherErr m => (st.1, st.2 ++ [server ++ (" - Unexpected Error - ".toList) ++ m])

/-- The `retrieve_dbs` loop of `00_update_inventory.py`, threading the
databases-file lines and the `conn_error` accumulator (initially
`connError0`). -/
def retrieve_dbs (servers : List (List Char)) (outcome : List Char → DbOutcome)
    (connError0 : List (List Char)) : List (List Char) × List (List Char) :=
  servers.foldl (retrieveStep outcome) ([], connError0)

/-- File lines contributed by one server of `retrieve_dbs`. -/
def retrieveDbLines (outcome : List Char → DbOutcome) (server : List Char) :
    List (List Char) :=
  match outcome server with
  | DbOutcome.ok rows =>
      if rows = [] then [server ++ (",No database found".toList)]
      else rows.map (fun r => server ++ (",".toList) ++ r)
  | _ => []

/-- Error record contributed by one server of `retrieve_dbs`. -/
def retrieveErrLine (outcome : List Char → DbOutcome) (server : List Char) :
    Option (List Char) :=
  match outcome server with
  | DbOutcome.ok _ => none
  | DbOutcome.odbcErr m => some (server ++ (" - ODBC Error - ".toList) ++ m)
  | DbOutcome.connErr m => some (server ++ (" - Connection Error- ".toList) ++ m)
  | DbOutcome.otherErr m => some (server ++ (" - Unexpected Error - ".toList) ++ m)

/-- Outcome of one server in `olap_databases`. -/
inductive OlapOutcome where
  | ok : List (List Char) → OlapOutcome
  | odbcErr : List Char → OlapOutcome
  | connErr : List Char → OlapOutcome
  | otherErr : List Char → OlapOutcome
deriving DecidableEq

/-- One iteration of the `olap_databases` loop (its error records use the
script's slightly different format strings). -/
def olapStep (outcome : List Char → OlapOutcome)
    (st : List (List Char) × List (List Char)) (server : List Char) :
    List (List Char) × List (List Char) :=
  match outcome server with
  | OlapOutcome.ok dbs =>
      (st.1 ++ (if dbs = [] then [server ++ (",No database found".toList)]
                else dbs.map (fun d => server ++ (",".toList) ++ d)), st.2)
  | OlapOutcome.odbcErr m => (st.1, st.2 ++ [server ++ ("\n: ODBC Error - ".toList) ++ m])
  | OlapOutcome.connErr m => (st.1, st.2 ++ [server ++ (" - Connection Error-  ".toList) ++ m])
  | OlapOutcome.otherErr m => (st.1, st.2 ++ [server ++ (" - Unexpected Error - ".toList) ++ m])

/-- The `olap_databases` loop: lines are appended to the databases file, and
errors are appended to the same global `conn_error` accumulator. -/
def olap_databases (servers : List (List Char)) (outcome : List Char → OlapOutcome)
    (connError0 : List (List Char)) : List (List Char) × List (List Char) :=
  servers.foldl (olapStep outcome) ([], connError0)

/-- Error record contributed by one server of `olap_databases`. -/
def olapErrLine (outcome : List Char → OlapOutcome) (server : List Char) :
    Option (List Char) :=
  match outcome server with
  | OlapOutcome.ok _ => none
  | OlapOutcome.odbcErr m => some (server ++ ("\n: ODBC Error - ".toList) ++ m)
  | OlapOutcome.connErr m => some (server ++ (" - Connection Error-  ".toList) ++ m)
  | OlapOutcome.otherErr m => some (server ++ (" - Unexpected Error - ".toList) ++ m)

/-- Contents of `CONNECTION_FAILURES_FILE` after the refresh flow has run
`retrieve_dbs` (which opens the file in write mode and writes the whole
`conn_error` list) followed by `olap_databases` (which opens it in append
mode and again writes the whole — by then extended — `conn_error` list). -/
def connectionFailuresFile (sqlServers olapServers : List (List Char))
    (out1 : List Char → DbOutcome) (out2 : List Char → OlapOutcome) :
    List (List Char) :=
  let afterRetrieve := retrieve_dbs sqlServers out1 []
  let afterOlap := olap_databases olapServers out2 afterRetrieve.2
  afterRetrieve.2 ++ afterOlap.2

/-- `reporting()` reads the failures file and prints every line. -/
def reporting (fileLines : List (List Char)) : List (List Char) := fileLines

/-- One row of the backup query in `05_sql_backup_info_collector.py`. -/
structure BackupRow where
  dbname : List Char
  backtype : List Char
  devicename : Option (List Char)
  iscopyonly : Bool
deriving DecidableEq

/-- Outcome of one server in the `05` script (only `pyodbc.Error` is
caught). -/
inductive Outcome05 where
  | ok : List BackupRow → Outcome05
  | odbcErr : Outcome05

/-- Formatting of one backup row:
`f"{server},{row.dbname},{row.backtype},{device_name},{is_copy_only}"` with
`device_name = 'Nativo' if row.devicename is None else row.devicename` and
`is_copy_only = '1' if row.iscopyonly else '0'`. -/
def backupLine (server : List Char) (r : BackupRow) : List Char :=
  server ++ (",".toList) ++ r.dbname ++ (",".toList) ++ r.backtype ++ (",".toList)
    ++ r.devicename.getD ("Nativo".toList) ++ (",".toList)
    ++ (if r.iscopyonly then ("1".toList) else ("0".toList))

/-- One iteration of the `05` server loop over `(results,
connection_errors)`. -/
def step05 (outcome : List Char → Outcome05)
    (st : List (List Char) × List (List Char)) (server : List Char) :
    List (List Char) × List (List Char) :=
  match outcome server with
  | Outcome05.ok rows => (st.1 ++ rows.map (backupLine server), st.2)
  | Outcome05.odbcErr => (st.1, st.2 ++ [server])

/-- The server loop of `05_sql_backup_info_collector.py`. -/
def backupCollectorLoop (servers : List (List Char)) (outcome : List Char → Outcome05) :
    List (List Char) × List (List Char) :=
  servers.foldl (step05 outcome) ([], [])

/-- Results contributed by one server of the `05` loop. -/
def lines05 (outcome : List Char → Outcome05) (server : List Char) : List (List Char) :=
  match outcome server with
  | Outcome05.ok rows => rows.map (backupLine server)
  | Outcome05.odbcErr => []

/-- Error record contributed by one server of the `05` loop. -/
def err05 (outcome : List Char → Outcome05) (server : List Char) : Option (List Char) :=
  match outcome server with
  | Outcome05.ok _ => none
  | Outcome05.odbcErr => some server

/-- Outcome of one server in `08_sqlserver_connect_list_execute.py`. -/
inductive Outcome08 where
  | ok : List (List Char) → Outcome08
  | odbcErr : Outcome08

/-- One iteration of the `08` server loop: an empty result appends the
sentinel `"{server},No user databases"`. -/
def step08 (outcome : List Char → Outcome08)
    (st : List (List Char) × List (List Char)) (server : List Char) :
    List (List Char) × List (List Char) :=
  match outcome server with
  | Outcome08.ok dbs =>
      (st.1 ++ (if dbs = [] then [server ++ (",No user databases".toList)]
                else dbs.map (fun n => server ++ (",".toList) ++ n)), st.2)
  | Outcome08.odbcErr => (st.1, st.2 ++ [server])

/-- The server loop of `08_sqlserver_connect_list_execute.py`. -/
def userDbLoop (servers : List (List Char)) (outcome : List Char → Outcome08) :
    List (List Char) × List (List Char) :=
  servers.foldl (step08 outcome) ([], [])

/-- Results contributed by one server of the `08` loop. -/
def lines08 (outcome : List Char → Outcome08) (server : List Char) : List (List Char) :=
  match outcome server with
  | Outcome08.ok dbs =>
      if dbs = [] then [server ++ (",No user databases".toList)]
      else dbs.map (fun n => server ++ (",".toList) ++ n)
  | Outcome08.odbcErr => []

/-- Error record contributed by one server of the `08` loop. -/
def err08 (outcome : List Char → Outcome08) (server : List Char) : Option (List Char) :=
  match outcome server with
  | Outcome08.ok _ => none
  | Outcome08.odbcErr => some server

/-- Server/contact tuple entering the per-server fact-collection loop of
`execute_tasks` in `00_serverdb_main_resp_info.py`. -/
structure RespDetail where
  server : List Char
  nm : List Char
  email : List Char
  env : List Char
deriving DecidableEq

/-- Outcome of one server's fact collection in that loop. -/
inductive RespOutcome where
  | ok : List Char → List Char → List (List Char) → RespOutcome
  | fail : RespOutcome

/-- One iteration of the fact-collection loop over `output_info`: an empty
user-database list is replaced by the sentinel `['No user database found']`,
and a connection failure appends the (six-field) failure record. -/
def respStep (outcome : List Char → RespOutcome)
    (st : List (List (List Char))) (d : RespDetail) : List (List (List Char)) :=
  match outcome d.server with
  | RespOutcome.ok ver clu dbs =>
      let dbs2 := if dbs = [] then [("No user database found".toList)] else dbs
      st ++ dbs2.map (fun db => [d.server, db, d.nm, d.email, d.env, ver, clu])
  | RespOutcome.fail =>
      st ++ [[d.server, ("Connection failed".toList), d.nm, d.email,
              ("Unknown version".toList), ("Unknown status".toList)]]

/-- The fact-collection loop of the registration script. -/
def respCollectLoop (details : List RespDetail) (outcome : List Char → RespOutcome) :
    List (List (List Char)) :=
  details.foldl (respStep outcome) []

/-- Rows contributed by one server of the fact-collection loop. -/
def respContrib (outcome : List Char → RespOutcome) (d : RespDetail) :
    List (List (List Char)) :=
  match outcome d.server with
  | RespOutcome.ok ver clu dbs =>
      (if dbs = [] then [("No user database found".toList)] else dbs).map
        (fun db => [d.server, db, d.nm, d.email, d.env, ver, clu])
  | RespOutcome.fail =>
      [[d.server, ("Connection failed".toList), d.nm, d.email,
        ("Unknown version".toList), ("Unknown status".toList)]]

/-! ### Pipeline control flow (claims C6, C9) -/

/-- State of `config/config.json` when `00_update_inventory.py` starts. -/
inductive ConfigSrc where
  | missing : ConfigSrc
  | malformed : ConfigSrc
  | valid : ConfigSrc

/-- The `try/except` around `json.load` at module load time: a missing file
and malformed JSON each print a message and `exit(1)`; the config payload
itself is irrelevant to the claims and elided. -/
def loadConfig : ConfigSrc → Except (List Char) Unit
  | ConfigSrc.missing =>
      Except.error (("Error: Configuration file 'config/config.json' not found.  Exiting.".toList))
  | ConfigSrc.malformed =>
      Except.error (("Error: Invalid JSON format in 'config/config.json'.  Exiting.".toList))
  | ConfigSrc.valid => Except.ok ()

/-- The pipeline steps of `execute_tasks` in `00_update_inventory.py`. -/
inductive UStep where
  | categorizeAd | retrieveDatabases | olapDbStep | retrieveServersInfo
  | convertCsvStep | mergeStep | insertStep | reportingStep
deriving DecidableEq

/-- Steps the refresh script executes for a given config state: the config is
loaded at import time, before any pipeline step, and `exit(1)` on failure
means no step runs at all. -/
def updateInventoryRun (src : ConfigSrc) : List UStep :=
  match loadConfig src with
  | Except.error _ => []
  | Except.ok _ =>
      [UStep.categorizeAd, UStep.retrieveDatabases, UStep.olapDbStep,
       UStep.retrieveServersInfo, UStep.convertCsvStep, UStep.mergeStep,
       UStep.insertStep, UStep.reportingStep]

/-- Pipeline steps of `execute_tasks` in `00_serverdb_main_resp_info.py`. -/
inductive RStep where
  | readAd | categorizeServers | getTracked | getReview | findUntracked
  | contactMapping | collectFacts | genInsertCommands
deriving DecidableEq

/-- How a run of the registration script ends. -/
inductive RegOutcome where
  | exitNoServers | exitCriticalContacts | completed
deriving DecidableEq

/-- Constant `RESPONSIBLE_PERSON_NAMES = []` of the registration script. -/
def RESPONSIBLE_PERSON_NAMES : List (List Char) := []

/-- Constant `empty_resp_name = len(RESPONSIBLE_PERSON_NAMES)`. -/
def empty_resp_name : Nat := RESPONSIBLE_PERSON_NAMES.length

/-- Control flow of `execute_tasks` in `00_serverdb_main_resp_info.py`:
`find_untracked_servers` exits when the untracked list is empty; otherwise
`if empty_resp_name == 0 or empty_resp_name != len(untracked_servers)` exits
with the critical-contacts message; otherwise the remaining steps run. -/
def respExecuteTasks (adServers trackedSql olapServers serversToReview : List (List Char)) :
    List RStep × RegOutcome :=
  let untracked := untrackedOf (nonClusterObjects adServers) trackedSql olapServers
    serversToReview
  if untracked = [] then
    ([RStep.readAd, RStep.categorizeServers, RStep.getTracked, RStep.getReview,
      RStep.findUntracked], RegOutcome.exitNoServers)
  else if empty_resp_name = 0 ∨ empty_resp_name ≠ untracked.length then
    ([RStep.readAd, RStep.categorizeServers, RStep.getTracked, RStep.getReview,
      RStep.findUntracked], RegOutcome.exitCriticalContacts)
  else
    ([RStep.readAd, RStep.categorizeServers, RStep.getTracked, RStep.getReview,
      RStep.findUntracked, RStep.contactMapping, RStep.collectFacts,
      RStep.genInsertCommands], RegOutcome.completed)

/-! ### CSV round-trip (claim C8) -/

/-- Split a character list at every occurrence of `sep`; a list with `n`
separators yields `n + 1` chunks, like Python's `str.split`. -/
def splitSep (sep : Char) : List Char → List (List Char)
  | [] => [[]]
  | c :: rest =>
      if c = sep then [] :: splitSep sep rest
      else
        match splitSep sep rest with
        | [] => [[c]]
        | h :: t => (c :: h) :: t

/-- Join chunks with a separator character (inverse of `splitSep`). -/
def joinSep (sep : Char) : List (List Char) → List Char
  | [] => []
  | [c] => c
  | c :: c2 :: cs => c ++ sep :: joinSep sep (c2 :: cs)

/-- Drop the spaces a `skipinitialspace=True` read skips after a delimiter. -/
def dropInitSpaces (l : List Char) : List Char :=
  l.dropWhile (fun c => c = ' ')

/-- Parse one line as `pandas.read_csv(..., delimiter=',',
skipinitialspace=True)` does: split on commas, keeping the first field as is
and skipping spaces after each delimiter. -/
def parseLineSkipInit (l : List Char) : List (List Char) :=
  match splitSep ',' l with
  | [] => []
  | c :: cs => c :: cs.map dropInitSpaces

/-- Parse one line as a plain `pandas.read_csv(file_path)` does (no
`skipinitialspace`). -/
def parseLineRaw (l : List Char) : List (List Char) :=
  splitSep ',' l

/-- Split file text into lines, ignoring the trailing newline of the last
written row. -/
def splitRows (text : List Char) : List (List Char) :=
  let chunks := splitSep '\n' text
  if chunks.getLast? = some [] then chunks.dropLast else chunks

/-- The text of a dataframe written row by row (`to_csv(..., index=False,
header=False)`): each row comma-joined and newline-terminated. -/
def writeCsvLines (rows : List (List (List Char))) : List Char :=
  rows.flatMap (fun r => joinSep ',' r ++ ['\n'])

/-- The rows a `skipinitialspace` read recovers from file text. -/
def parseCsvSkipInit (text : List Char) : List (List (List Char)) :=
  (splitRows text).map parseLineSkipInit

/-- The rows a plain read recovers from file text. -/
def parseCsvRaw (text : List Char) : List (List (List Char)) :=
  (splitRows text).map parseLineRaw

/-- `convert_to_csv` of `00_update_inventory.py`: read the delimited text
with `skipinitialspace=True` and write it back row by row. -/
def convert_to_csv (text : List Char) : List Char :=
  writeCsvLines (parseCsvSkipInit text)

/-- Reading the merged CSV back in `read_csv_and_insert_data`
(`pd.read_csv(file_path)`): the first line is the header, the rest are data
rows. -/
def readCsvHeader (text : List Char) : Option (List (List Char) × List (List (List Char))) :=
  match parseCsvRaw text with
  | [] => none
  | h :: t => some (h, t)

/-- A dataset is well formed when every row is nonempty and every cell is
free of commas, newlines and leading spaces. -/
def wellFormedCsv (rows : List (List (List Char))) : Prop :=
  ∀ r ∈ rows, r ≠ [] ∧ ∀ c ∈ r, (',') ∉ c ∧ ('\n') ∉ c ∧ dropInitSpaces c = c

instance (rows : List (List (List Char))) : Decidable (wellFormedCsv rows) := by
  unfold wellFormedCsv
  infer_instance

section SubstringLemmas

/-- A one-character needle is a substring exactly when the character occurs. -/
theorem containsSeq_singleton_iff (c : Char) (hay : List Char) :
    containsSeq [c] hay = true ↔ c ∈ hay := by
  induction hay with
  | nil => simp [containsSeq]
  | cons d rest ih =>
    simp only [containsSeq, List.isPrefixOf, Bool.or_eq_true, Bool.and_eq_true, beq_iff_eq,
      List.mem_cons]
    constructor
    · rintro (⟨h, -⟩ | h)
      · exact Or.inl h
      · exact Or.inr (ih.mp h)
    · rintro (h | h)
      · exact Or.inl ⟨h, trivial⟩
      · exact Or.inr (ih.mpr h)

/-- If a nonempty needle occurs as a substring, its head character occurs. -/
theorem head_mem_of_containsSeq (c : Char) (cs hay : List Char)
    (h : containsSeq (c :: cs) hay = true) : c ∈ hay := by
  induction hay with
  | nil => simp [containsSeq] at h
  | cons d rest ih =>
    simp only [containsSeq, List.isPrefixOf, Bool.or_eq_true, Bool.and_eq_true,
      beq_iff_eq] at h
    rcases h with ⟨h, -⟩ | h
    · exact List.mem_cons.mpr (Or.inl h)
    · exact List.mem_cons.mpr (Or.inr (ih h))

/-- A list occurs as a substring of any concatenation that embeds it. -/
theorem containsSeq_of_embed (mid pre suf : List Char) :
    containsSeq mid (pre ++ mid ++ suf) = true := by
  induction pre with
  | nil =>
    have hpre : ∀ (l t : List Char), l.isPrefixOf (l ++ t) = true := by
      intro l
      induction l with
      | nil => intro t; cases t <;> rfl
      | cons a as ihl => intro t; simp [List.isPrefixOf, ihl]
    simp only [List.nil_append]
    cases hm : mid ++ suf with
    | nil =>
      rcases List.append_eq_nil.mp hm with ⟨h1, h2⟩
      subst h1
      subst h2
      rfl
    | cons c rest =>
      simp only [containsSeq, Bool.or_eq_true]
      left
      rw [← hm]
      exact hpre mid suf
  | cons p ps ih =>
    simp only [List.cons_append, containsSeq, Bool.or_eq_true]
    exact Or.inr ih

/-- A substring of the right part is a substring of a concatenation. -/
theorem containsSeq_append_right (mid s t : List Char) (h : containsSeq mid t = true) :
    containsSeq mid (s ++ t) = true := by
  induction s with
  | nil => simpa using h
  | cons c s2 ih =>
    simp only [List.cons_append, containsSeq, Bool.or_eq_true]
    exact Or.inr ih

end SubstringLemmas

section UntrackedLemmas

/-- Membership in the untracked list. -/
theorem mem_untrackedOf_iff (c t o r : List (List Char)) (s : List Char) :
    s ∈ untrackedOf c t o r ↔ s ∈ c ∧ s ∉ t ∧ s ∉ o ∧ s ∉ r := by
  simp [untrackedOf, List.mem_filter, and_assoc]

/-- Multiplicity in the untracked list: duplicates among candidates are kept. -/
theorem count_untrackedOf (c t o r : List (List Char)) (s : List Char) :
    (untrackedOf c t o r).count s =
      if s ∉ t ∧ s ∉ o ∧ s ∉ r then c.count s else 0 := by
  unfold untrackedOf
  by_cases h : s ∉ t ∧ s ∉ o ∧ s ∉ r
  · rw [if_pos h]
    apply List.count_filter
    simp [h.1, h.2.1, h.2.2]
  · rw [if_neg h]
    rw [List.count_eq_zero]
    intro hmem
    rcases (mem_untrackedOf_iff c t o r s).mp hmem with ⟨-, h1, h2, h3⟩
    exact h ⟨h1, h2, h3⟩

/-- The untracked list is a sublist of the candidates: order preserved. -/
theorem untrackedOf_sublist (c t o r : List (List Char)) :
    (untrackedOf c t o r).Sublist c :=
  List.filter_sublist c

end UntrackedLemmas

section LoopLemmas

/-- One `retrieve_dbs` iteration appends that server's lines and error. -/
theorem retrieveStep_eq (outcome : List Char → DbOutcome)
    (st : List (List Char) × List (List Char)) (server : List Char) :
    retrieveStep outcome st server =
      (st.1 ++ retrieveDbLines outcome server,
       st.2 ++ (retrieveErrLine outcome server).toList) := by
  cases h : outcome server <;>
    simp [retrieveStep, retrieveDbLines, retrieveErrLine, h]

/-- The `retrieve_dbs` fold decomposes into per-server contributions. -/
theorem retrieve_dbs_foldl (servers : List (List Char)) (outcome : List Char → DbOutcome)
    (preL preE : List (List Char)) :
    servers.foldl (retrieveStep outcome) (preL, preE)
      = (preL ++ servers.flatMap (retrieveDbLines outcome),
         preE ++ servers.filterMap (retrieveErrLine outcome)) := by
  induction servers generalizing preL preE with
  | nil => simp
  | cons s rest ih =>
    rw [List.foldl_cons, retrieveStep_eq, ih]
    cases h : retrieveErrLine outcome s <;> simp [h, List.filterMap_cons]

/-- One `olap_databases` iteration appends that server's lines and error. -/
theorem olapStep_eq (outcome : List Char → OlapOutcome)
    (st : List (List Char) × List (List Char)) (server : List Char) :
    olapStep outcome st server =
      (st.1 ++ (match outcome server with
        | OlapOutcome.ok dbs =>
            if dbs = [] then [server ++ (",No database found".toList)]
            else dbs.map (fun d => server ++ (",".toList) ++ d)
        | _ => []),
       st.2 ++ (olapErrLine outcome server).toList) := by
  cases h : outcome server <;> simp [olapStep, olapErrLine, h]

/-- The `olap_databases` fold decomposes into per-server contributions. -/
theorem olap_databases_foldl (servers : List (List Char)) (outcome : List Char → OlapOutcome)
    (preL preE : List (List Char)) :
    servers.foldl (olapStep outcome) (preL, preE)
      = (preL ++ servers.flatMap (fun server =>
           match outcome server with
           | OlapOutcome.ok dbs =>
               if dbs = [] then [server ++ (",No database found".toList)]
               else dbs.map (fun d => server ++ (",".toList) ++ d)
           | _ => []),
         preE ++ servers.filterMap (olapErrLine outcome)) := by
  induction servers generalizing preL preE with
  | nil => simp
  | cons s rest ih =>
    rw [List.foldl_cons, olapStep_eq, ih]
    cases h : olapErrLine outcome s <;> simp [h, List.filterMap_cons]

/-- One `05` iteration appends that server's lines and error. -/
theorem step05_eq (outcome : List Char → Outcome05)
    (st : List (List Char) × List (List Char)) (server : List Char) :
    step05 outcome st server =
      (st.1 ++ lines05 outcome server, st.2 ++ (err05 outcome server).toList) := by
  cases h : outcome server <;> simp [step05, lines05, err05, h]

/-- The `05` loop decomposes into per-server contributions. -/
theorem backupCollectorLoop_foldl (servers : List (List Char))
    (outcome : List Char → Outcome05) (preL preE : List (List Char)) :
    servers.foldl (step05 outcome) (preL, preE)
      = (preL ++ servers.flatMap (lines05 outcome),
         preE ++ servers.filterMap (err05 outcome)) := by
  induction servers generalizing preL preE with
  | nil => simp
  | cons s rest ih =>
    rw [List.foldl_cons, step05_eq, ih]
    cases h : err05 outcome s <;> simp [h, List.filterMap_cons]

/-- One `08` iteration appends that server's lines and error. -/
theorem step08_eq (outcome : List Char → Outcome08)
    (st : List (List Char) × List (List Char)) (server : List Char) :
    step08 outcome st server =
      (st.1 ++ lines08 outcome server, st.2 ++ (err08 outcome server).toList) := by
  cases h : outcome server <;> simp [step08, lines08, err08, h]

/-- The `08` loop decomposes into per-server contributions. -/
theorem userDbLoop_foldl (servers : List (List Char)) (outcome : List Char → Outcome08)
    (preL preE : List (List Char)) :
    servers.foldl (step08 outcome) (preL, preE)
      = (preL ++ servers.flatMap (lines08 outcome),
         preE ++ servers.filterMap (err08 outcome)) := by
  induction servers generalizing preL preE with
  | nil => simp
  | cons s rest ih =>
    rw [List.foldl_cons, step08_eq, ih]
    cases h : err08 outcome s <;> simp [h, List.filterMap_cons]

/-- One fact-collection iteration appends that server's rows. -/
theorem respStep_eq (outcome : List Char → RespOutcome)
    (st : List (List (List Char))) (d : RespDetail) :
    respStep outcome st d = st ++ respContrib outcome d := by
  cases h : outcome d.server <;> simp [respStep, respContrib, h]

/-- The fact-collection loop decomposes into per-server contributions. -/
theorem respCollectLoop_foldl (details : List RespDetail)
    (outcome : List Char → RespOutcome) (pre : List (List (List Char))) :
    details.foldl (respStep outcome) pre = pre ++ details.flatMap (respContrib outcome) := by
  induction details generalizing pre with
  | nil => simp
  | cons d rest ih =>
    rw [List.foldl_cons, respStep_eq, ih]
    simp

end LoopLemmas

section RefreshTraceLemmas

/-- Statement generation yields exactly one statement per row. -/
theorem genRows_length (tname : List Char) (cols : List (List Char)) :
    ∀ (rows : List (List Cell)) (stmts : List (List Char)),
      genRows tname cols rows = some stmts → stmts.length = rows.length := by
  intro rows
  induction rows with
  | nil => intro stmts h; simp [genRows] at h; simp [← h]
  | cons r rest ih =>
    intro stmts h
    simp only [genRows] at h
    cases hb : buildInsertRefresh tname cols r with
    | none => rw [hb] at h; exact absurd h (by simp)
    | some s =>
      rw [hb] at h
      cases hg : genRows tname cols rest with
      | none => rw [hg] at h; exact absurd h (by simp)
      | some ss =>
        rw [hg] at h
        simp only [Option.some.injEq] at h
        subst h
        simp [ih ss hg]

/-- Executing a block of INSERT actions appends their rows in order. -/
theorem foldl_insert_actions (stmts : List (List Char)) :
    ∀ acc : List (List Char),
      (stmts.map SqlAction.insert).foldl applySql acc = acc ++ stmts := by
  induction stmts with
  | nil => intro acc; simp [runSql]
  | cons s rest ih =>
    intro acc
    simp only [List.map_cons, List.foldl_cons]
    rw [ih]
    simp [applySql]

end RefreshTraceLemmas

section SplitJoinLemmas

/-- `splitSep` never returns the empty list of chunks. -/
theorem splitSep_ne_nil (sep : Char) (l : List Char) : splitSep sep l ≠ [] := by
  induction l with
  | nil => simp [splitSep]
  | cons c rest ih =>
    simp only [splitSep]
    split
    · simp
    · cases h : splitSep sep rest with
      | nil => simp
      | cons a as => simp

/-- Splitting a separator-free list yields that single chunk. -/
theorem splitSep_no_sep (sep : Char) (l : List Char) (h : sep ∉ l) :
    splitSep sep l = [l] := by
  induction l with
  | nil => rfl
  | cons c rest ih =>
    have hc : ¬ c = sep := fun hc => h (hc ▸ List.mem_cons_self c rest)
    have hr : sep ∉ rest := fun hr => h (List.mem_cons_of_mem c hr)
    simp only [splitSep, if_neg hc, ih hr]

/-- Splitting after a separator-free head chunk peels it off. -/
theorem splitSep_append_cons (sep : Char) (a rest : List Char) (h : sep ∉ a) :
    splitSep sep (a ++ sep :: rest) = a :: splitSep sep rest := by
  induction a with
  | nil => simp [splitSep]
  | cons c a2 ih =>
    have hc : ¬ c = sep := fun hc => h (hc ▸ List.mem_cons_self c a2)
    have ha : sep ∉ a2 := fun ha => h (List.mem_cons_of_mem c ha)
    simp only [List.cons_append, splitSep, if_neg hc, List.append_eq, ih ha]

/-- A character different from the separator and absent from every chunk is
absent from the join. -/
theorem not_mem_joinSep (sep x : Char) (hx : x ≠ sep) :
    ∀ chunks : List (List Char), (∀ c ∈ chunks, x ∉ c) → x ∉ joinSep sep chunks := by
  intro chunks
  induction chunks with
  | nil => intro _; simp [joinSep]
  | cons c cs ih =>
    intro h
    cases cs with
    | nil =>
      simp only [joinSep]
      exact h c (List.mem_cons_self c [])
    | cons c2 cs2 =>
      simp only [joinSep, List.mem_append, List.mem_cons]
      rintro (hin | hin | hin)
      · exact h c (List.mem_cons_self _ _) hin
      · exact hx hin
      · exact ih (fun d hd => h d (List.mem_cons_of_mem c hd)) hin

/-- `splitSep` is a left inverse of `joinSep` on nonempty chunk lists whose
chunks avoid the separator. -/
theorem splitSep_joinSep (sep : Char) :
    ∀ chunks : List (List Char), chunks ≠ [] → (∀ c ∈ chunks, sep ∉ c) →
      splitSep sep (joinSep sep chunks) = chunks := by
  intro chunks
  induction chunks with
  | nil => intro h; exact absurd rfl h
  | cons c cs ih =>
    intro _ h
    cases cs with
    | nil =>
      simp only [joinSep]
      exact splitSep_no_sep sep c (h c (List.mem_cons_self c []))
    | cons c2 cs2 =>
      simp only [joinSep]
      rw [splitSep_append_cons sep c _ (h c (List.mem_cons_self _ _))]
      rw [ih (by simp) (fun d hd => h d (List.mem_cons_of_mem c hd))]

end SplitJoinLemmas

section CsvLemmas

/-- Splitting the written file text on newlines recovers the joined rows plus
one trailing empty chunk. -/
theorem splitSep_writeCsvLines (rows : List (List (List Char)))
    (h : ∀ r ∈ rows, ('\n') ∉ joinSep ',' r) :
    splitSep '\n' (writeCsvLines rows) = rows.map (joinSep ',') ++ [[]] := by
  induction rows with
  | nil => simp [writeCsvLines, splitSep]
  | cons r rest ih =>
    have : writeCsvLines (r :: rest) = joinSep ',' r ++ ('\n' :: writeCsvLines rest) := by
      simp [writeCsvLines]
    rw [this, splitSep_append_cons '\n' _ _ (h r (List.mem_cons_self r rest))]
    rw [ih (fun q hq => h q (List.mem_cons_of_mem r hq))]
    simp

/-- Reading the written rows back line by line recovers the joined rows. -/
theorem splitRows_writeCsvLines (rows : List (List (List Char)))
    (h : ∀ r ∈ rows, ('\n') ∉ joinSep ',' r) :
    splitRows (writeCsvLines rows) = rows.map (joinSep ',') := by
  unfold splitRows
  rw [splitSep_writeCsvLines rows h]
  simp [List.getLast?_concat, List.dropLast_concat]

/-- A well-formed row survives the comma join and raw split. -/
theorem parseLineRaw_joinSep (r : List (List Char)) (hne : r ≠ [])
    (h : ∀ c ∈ r, (',') ∉ c) : parseLineRaw (joinSep ',' r) = r :=
  splitSep_joinSep ',' r hne h

/-- A well-formed row also survives the `skipinitialspace` split. -/
theorem parseLineSkipInit_joinSep (r : List (List Char)) (hne : r ≠ [])
    (h : ∀ c ∈ r, (',') ∉ c) (hsp : ∀ c ∈ r, dropInitSpaces c = c) :
    parseLineSkipInit (joinSep ',' r) = r := by
  unfold parseLineSkipInit
  rw [splitSep_joinSep ',' r hne h]
  cases r with
  | nil => exact absurd rfl hne
  | cons c cs =>
    have : cs.map dropInitSpaces = cs := by
      rw [List.map_congr_left (fun d hd => hsp d (List.mem_cons_of_mem c hd))]
      exact List.map_id cs
    simp [this]

/-- Newlines do not occur in a well-formed joined row. -/
theorem newline_not_mem_join (rows : List (List (List Char))) (hwf : wellFormedCsv rows) :
    ∀ r ∈ rows, ('\n') ∉ joinSep ',' r := by
  intro r hr
  exact not_mem_joinSep ',' '\n' (by decide) r
    (fun c hc => ((hwf r hr).2 c hc).2.1)

/-- Full raw round-trip. -/
theorem parseCsvRaw_writeCsvLines (rows : List (List (List Char)))
    (hwf : wellFormedCsv rows) : parseCsvRaw (writeCsvLines rows) = rows := by
  unfold parseCsvRaw
  rw [splitRows_writeCsvLines rows (newline_not_mem_join rows hwf)]
  rw [List.map_map]
  have hmap : List.map (parseLineRaw ∘ joinSep ',') rows = List.map id rows :=
    List.map_congr_left (fun r hr =>
      parseLineRaw_joinSep r (hwf r hr).1 (fun c hc => ((hwf r hr).2 c hc).1))
  rw [hmap, List.map_id]

/-- Full `skipinitialspace` round-trip. -/
theorem parseCsvSkipInit_writeCsvLines (rows : List (List (List Char)))
    (hwf : wellFormedCsv rows) : parseCsvSkipInit (writeCsvLines rows) = rows := by
  unfold parseCsvSkipInit
  rw [splitRows_writeCsvLines rows (newline_not_mem_join rows hwf)]
  rw [List.map_map]
  have hmap : List.map (parseLineSkipInit ∘ joinSep ',') rows = List.map id rows :=
    List.map_congr_left (fun r hr =>
      parseLineSkipInit_joinSep r (hwf r hr).1 (fun c hc => ((hwf r hr).2 c hc).1)
        (fun c hc => ((hwf r hr).2 c hc).2.2))
  rw [hmap, List.map_id]

end CsvLemmas

section EnvironmentLemmas

/-- Case analysis of `get_environment`: the dict scan is equivalent to a
priority test for the characters `D`, `P`, `E` inside the last-three-character
segment; the three-letter dict keys can never fire. -/
theorem get_environment_char (nm : List Char) :
    get_environment nm =
      (if ('D') ∈ lastThree nm then ("DES".toList)
       else if ('P') ∈ lastThree nm then ("PRE".toList)
       else if ('E') ∈ lastThree nm then ("PRO".toList)
       else ("N/A".toList)) := by
  by_cases hD : ('D') ∈ lastThree nm
  · have h1 : containsSeq ['D'] (lastThree nm) = true :=
      (containsSeq_singleton_iff _ _).mpr hD
    simp [get_environment, suffixToEnvironment, List.find?, h1, hD]
  · have h1 : containsSeq ['D'] (lastThree nm) = false := by
      cases hcs : containsSeq ['D'] (lastThree nm)
      · rfl
      · exact absurd ((containsSeq_singleton_iff _ _).mp hcs) hD
    have h4 : containsSeq ['D', 'E', 'S'] (lastThree nm) = false := by
      cases hcs : containsSeq ['D', 'E', 'S'] (lastThree nm)
      · rfl
      · exact absurd (head_mem_of_containsSeq _ _ _ hcs) hD
    by_cases hP : ('P') ∈ lastThree nm
    · have h2 : containsSeq ['P'] (lastThree nm) = true :=
        (containsSeq_singleton_iff _ _).mpr hP
      simp [get_environment, suffixToEnvironment, List.find?, h1, h2, hD, hP]
    · have h2 : containsSeq ['P'] (lastThree nm) = false := by
        cases hcs : containsSeq ['P'] (lastThree nm)
        · rfl
        · exact absurd ((containsSeq_singleton_iff _ _).mp hcs) hP
      have h5 : containsSeq ['P', 'R', 'E'] (lastThree nm) = false := by
        cases hcs : containsSeq ['P', 'R', 'E'] (lastThree nm)
        · rfl
        · exact absurd (head_mem_of_containsSeq _ _ _ hcs) hP
      have h6 : containsSeq ['P', 'R', 'O'] (lastThree nm) = false := by
        cases hcs : containsSeq ['P', 'R', 'O'] (lastThree nm)
        · rfl
        · exact absurd (head_mem_of_containsSeq _ _ _ hcs) hP
      by_cases hE : ('E') ∈ lastThree nm
      · have h3 : containsSeq ['E'] (lastThree nm) = true :=
          (containsSeq_singleton_iff _ _).mpr hE
        simp [get_environment, suffixToEnvironment, List.find?, h1, h2, h3, hD, hP, hE]
      · have h3 : containsSeq ['E'] (lastThree nm) = false := by
          cases hcs : containsSeq ['E'] (lastThree nm)
          · rfl
          · exact absurd ((containsSeq_singleton_iff _ _).mp hcs) hE
        simp [get_environment, suffixToEnvironment, List.find?, h1, h2, h3, h4, h5, h6,
          hD, hP, hE]

end EnvironmentLemmas

/-! ## Claims -/

/-- Claim C1 (corrected): `find_untracked_servers` returns exactly the
candidates that are members of none of the three other lists, preserving
order and duplicates (returning them only when at least one exists, since an
empty result exits the process).  The second half of the claim is amended:
an enumeration line containing the cluster keyword is never itself placed in
the candidate list, so every member of the result is the normalisation of
some enumeration line in which the (case-sensitive) keyword test failed — but
that normalised name may still contain the keyword when the line differed in
case. -/
theorem C1_untracked_characterization :
    (∀ (c t o r : List (List Char)) (s : List Char),
        s ∈ untrackedOf c t o r ↔ s ∈ c ∧ s ∉ t ∧ s ∉ o ∧ s ∉ r)
    ∧ (∀ (c t o r : List (List Char)) (s : List Char),
        (untrackedOf c t o r).count s =
          if s ∉ t ∧ s ∉ o ∧ s ∉ r then c.count s else 0)
    ∧ (∀ c t o r : List (List Char), (untrackedOf c t o r).Sublist c)
    ∧ (∀ (ad t o r us : List (List Char)) (x : List Char),
        find_untracked_servers (nonClusterObjects ad) t o r = some us → x ∈ us →
        ∃ raw, raw ∈ ad ∧ containsSeq CLUSTER_KEYWORD raw = false
          ∧ normalizeName raw = x) := by
  refine ⟨mem_untrackedOf_iff, count_untrackedOf, untrackedOf_sublist, ?_⟩
  intro ad t o r us x hsome hx
  unfold find_untracked_servers at hsome
  by_cases hu : untrackedOf (nonClusterObjects ad) t o r = []
  · rw [if_pos hu] at hsome
    exact absurd hsome (by simp)
  · rw [if_neg hu] at hsome
    have hus : us = untrackedOf (nonClusterObjects ad) t o r := by
      simpa using hsome.symm
    have hxm : x ∈ nonClusterObjects ad :=
      ((mem_untrackedOf_iff _ t o r x).mp (hus ▸ hx)).1
    unfold nonClusterObjects at hxm
    rcases List.mem_map.mp hxm with ⟨raw, hraw, hnorm⟩
    rcases List.mem_filter.mp hraw with ⟨hmem, hkw⟩
    refine ⟨raw, hmem, ?_, hnorm⟩
    simpa using hkw

/-- Claim C1, counterexample to the original claim: with the enumeration
`["SRCLU01", "srclu01"]` and all three exclusion lists empty, the element
`"SRCLU01"` of the enumeration contains the cluster keyword and is absent
from all three lists, yet it is in the result (contributed by the lowercase
line, which the case-sensitive keyword test does not catch). -/
theorem C1_counterexample :
    containsSeq CLUSTER_KEYWORD ("SRCLU01".toList) = true
    ∧ ("SRCLU01".toList) ∈ [("SRCLU01".toList), ("srclu01".toList)]
    ∧ find_untracked_servers
        (nonClusterObjects [("SRCLU01".toList), ("srclu01".toList)]) [] [] []
        = some [("SRCLU01".toList)] := by
  decide

/-- Claim C1, witness: the characterization applied to the one-line
enumeration `["sra01"]` with empty exclusion lists. -/
theorem C1_witness :
    ∃ raw, raw ∈ [("sra01".toList)] ∧ containsSeq CLUSTER_KEYWORD raw = false
      ∧ normalizeName raw = ("SRA01".toList) :=
  C1_untracked_characterization.2.2.2 [("sra01".toList)] [] [] []
    [("SRA01".toList)] ("SRA01".toList) (by decide) (by decide)

/-- Claim C2 (corrected): `get_environment` does not map each *ending* to its
documented label; it scans the dict keys in insertion order and returns the
label of the first key occurring as a substring of the last three characters.
Equivalently: `'DES'` if `D` occurs in the last three characters, else
`'PRE'` if `P` occurs, else `'PRO'` if `E` occurs, else `'N/A'`.  Names
ending in `D` or `DES` therefore do get `'DES'` and names ending in `PRE` get
`'PRE'`, but a name ending in `PRO` gets `'PRE'` (or `'DES'`), and the
three-letter dict keys can never fire. -/
theorem C2_environment_scan :
    ∀ nm : List Char,
      get_environment nm =
        (if ('D') ∈ lastThree nm then ("DES".toList)
         else if ('P') ∈ lastThree nm then ("PRE".toList)
         else if ('E') ∈ lastThree nm then ("PRO".toList)
         else ("N/A".toList)) :=
  get_environment_char

/-- Claim C2, counterexample to the original claim: `"SRVPRO"` ends in `PRO`
but is labelled `'PRE'`, and `"SRXDP"` ends in `P` but is labelled `'DES'`. -/
theorem C2_counterexample :
    get_environment ("SRVPRO".toList) = ("PRE".toList)
    ∧ ("PRE".toList) ≠ ("PRO".toList)
    ∧ get_environment ("SRXDP".toList) = ("DES".toList)
    ∧ ("DES".toList) ≠ ("PRE".toList) := by
  decide

/-- Claim C3 (corrected): in the refresh flow every non-numeric value is
enclosed in single quotes with embedded quotes doubled and every missing
value becomes `''`; but the registration flow interpolates each value
verbatim between quotes, without doubling embedded quotes — witnessed by the
raw database value appearing between its two enclosing quotes. -/
theorem C3_insert_escaping :
    (∀ col s : List Char, col ≠ backupRetDaysCol →
        renderValue col (Cell.strv s)
          = some (singleQuote :: escapeQuotes s ++ [singleQuote]))
    ∧ (∀ col : List Char, renderValue col Cell.nan = some [singleQuote, singleQuote])
    ∧ (∀ server db nm email env sqlVersion saHadr : List Char,
        containsSeq ([singleQuote] ++ db ++ [singleQuote])
          (buildRegInsert server db nm email env sqlVersion saHadr) = true) := by
  refine ⟨?_, fun _ => rfl, ?_⟩
  · intro col s h
    simp [renderValue, h]
  · intro server db nm email env sqlVersion saHadr
    have hshape : buildRegInsert server db nm email env sqlVersion saHadr
        = (regInsertHead ++ [singleQuote] ++ server ++ [singleQuote] ++ (", ".toList))
          ++ (([singleQuote] ++ db ++ [singleQuote])
              ++ regInsertTail nm email env sqlVersion saHadr) := by
      simp [buildRegInsert, List.append_assoc]
    rw [hshape]
    apply containsSeq_append_right
    have := containsSeq_of_embed ([singleQuote] ++ db ++ [singleQuote]) []
      (regInsertTail nm email env sqlVersion saHadr)
    simpa using this

set_option maxRecDepth 16384 in
/-- Claim C3, counterexample to the original claim: at a database name with
an embedded single quote the registration statement differs from the
claim-compliant (quote-doubling) statement, and the raw unescaped value is
embedded verbatim. -/
theorem C3_counterexample :
    buildRegInsert ("SRV1".toList) ("O'B".toList) ("N1".toList) ("E1".toList)
        ("PRO".toList) ("V15".toList) ("No".toList)
      ≠ buildRegInsertClaimed ("SRV1".toList) ("O'B".toList) ("N1".toList) ("E1".toList)
        ("PRO".toList) ("V15".toList) ("No".toList)
    ∧ containsSeq ([singleQuote] ++ ("O'B".toList) ++ [singleQuote])
        (buildRegInsert ("SRV1".toList) ("O'B".toList) ("N1".toList) ("E1".toList)
          ("PRO".toList) ("V15".toList) ("No".toList)) = true := by
  constructor
  · decide
  · decide

/-- Claim C3, witness: the refresh-flow rendering of the value `O'B` in the
(non-numeric) `ServerName` column. -/
theorem C3_witness :
    renderValue ("ServerName".toList) (Cell.strv ("O'B".toList))
      = some (singleQuote :: escapeQuotes ("O'B".toList) ++ [singleQuote]) :=
  C3_insert_escaping.1 ("ServerName".toList) ("O'B".toList) (by decide)

/-- Claim C4 (confirmed): whenever statement generation succeeds, the refresh
run executes the TRUNCATE strictly before any INSERT, executes exactly one
INSERT per data row of the merged CSV, and leaves the table holding exactly
the generated statements' rows, whatever its prior contents. -/
theorem C4_truncate_then_inserts :
    ∀ (tname dt : List Char) (cols : List (List Char)) (rows : List (List Cell))
      (stmts init : List (List Char)),
      genInsertStatements tname dt cols rows = some stmts →
      read_csv_and_insert_trace tname dt cols rows
          = SqlAction.truncate tname :: stmts.map SqlAction.insert
        ∧ stmts.length = rows.length
        ∧ runSql init (read_csv_and_insert_trace tname dt cols rows) = stmts := by
  intro tname dt cols rows stmts init h
  have htrace : read_csv_and_insert_trace tname dt cols rows
      = SqlAction.truncate tname :: stmts.map SqlAction.insert := by
    unfold read_csv_and_insert_trace
    rw [h]
  refine ⟨htrace, ?_, ?_⟩
  · have hlen := genRows_length tname (("GeneratedDateTime".toList) :: cols)
      (rows.map (fun r => Cell.strv dt :: r)) stmts
      (by simpa [genInsertStatements] using h)
    simpa using hlen
  · rw [htrace]
    unfold runSql
    rw [List.foldl_cons]
    simpa using foldl_insert_actions stmts []

set_option maxRecDepth 16384 in
/-- Claim C4, witness: a one-column, one-row dataset. -/
theorem C4_witness :
    read_csv_and_insert_trace ("T".toList) ("d".toList) [("A".toList)]
        [[Cell.strv ("x".toList)]]
        = SqlAction.truncate ("T".toList)
          :: [("INSERT INTO T (GeneratedDateTime, A) VALUES ('d', 'x');".toList)].map
              SqlAction.insert
      ∧ [("INSERT INTO T (GeneratedDateTime, A) VALUES ('d', 'x');".toList)].length
          = [[Cell.strv ("x".toList)]].length
      ∧ runSql [("old".toList)]
          (read_csv_and_insert_trace ("T".toList) ("d".toList) [("A".toList)]
            [[Cell.strv ("x".toList)]])
          = [("INSERT INTO T (GeneratedDateTime, A) VALUES ('d', 'x');".toList)] :=
  C4_truncate_then_inserts ("T".toList) ("d".toList) [("A".toList)]
    [[Cell.strv ("x".toList)]]
    [("INSERT INTO T (GeneratedDateTime, A) VALUES ('d', 'x');".toList)]
    [("old".toList)] (by decide)

/-- Claim C5 (confirmed): each per-server collection loop decomposes into
independent per-server contributions: every caught failure appends exactly
its record to the error accumulator, every success appends exactly its output
lines, and every server in the list is processed regardless of what happened
to the servers before it. -/
theorem C5_loops_survive_failures :
    (∀ (servers : List (List Char)) (outcome : List Char → DbOutcome)
        (e0 : List (List Char)),
        retrieve_dbs servers outcome e0
          = (servers.flatMap (retrieveDbLines outcome),
             e0 ++ servers.filterMap (retrieveErrLine outcome)))
    ∧ (∀ (servers : List (List Char)) (outcome : List Char → Outcome05),
        backupCollectorLoop servers outcome
          = (servers.flatMap (lines05 outcome), servers.filterMap (err05 outcome)))
    ∧ (∀ (servers : List (List Char)) (outcome : List Char → Outcome08),
        userDbLoop servers outcome
          = (servers.flatMap (lines08 outcome), servers.filterMap (err08 outcome))) := by
  refine ⟨?_, ?_, ?_⟩
  · intro servers outcome e0
    unfold retrieve_dbs
    rw [retrieve_dbs_foldl]
    simp
  · intro servers outcome
    unfold backupCollectorLoop
    rw [backupCollectorLoop_foldl]
    simp
  · intro servers outcome
    unfold userDbLoop
    rw [userDbLoop_foldl]
    simp

/-- Claim C6 (confirmed): a missing configuration file and malformed
configuration JSON each terminate the refresh script after its message with
no pipeline step executed, and an empty untracked-server list terminates the
registration script right after `find_untracked_servers`, before the
contact-mapping step. -/
theorem C6_fatal_conditions :
    (loadConfig ConfigSrc.missing
        = Except.error
            (("Error: Configuration file 'config/config.json' not found.  Exiting.".toList))
      ∧ updateInventoryRun ConfigSrc.missing = [])
    ∧ (loadConfig ConfigSrc.malformed
        = Except.error
            (("Error: Invalid JSON format in 'config/config.json'.  Exiting.".toList))
      ∧ updateInventoryRun ConfigSrc.malformed = [])
    ∧ (∀ ad t o r : List (List Char),
        untrackedOf (nonClusterObjects ad) t o r = [] →
        respExecuteTasks ad t o r
            = ([RStep.readAd, RStep.categorizeServers, RStep.getTracked,
                RStep.getReview, RStep.findUntracked], RegOutcome.exitNoServers)
          ∧ RStep.contactMapping ∉ (respExecuteTasks ad t o r).1) := by
  refine ⟨⟨rfl, rfl⟩, ⟨rfl, rfl⟩, ?_⟩
  intro ad t o r h
  have heq : respExecuteTasks ad t o r
      = ([RStep.readAd, RStep.categorizeServers, RStep.getTracked, RStep.getReview,
          RStep.findUntracked], RegOutcome.exitNoServers) := by
    simp [respExecuteTasks, h]
  exact ⟨heq, by rw [heq]; decide⟩

/-- Claim C6, witness: an empty directory enumeration yields an empty
untracked list and the no-servers exit. -/
theorem C6_witness :
    respExecuteTasks [] [] [] []
        = ([RStep.readAd, RStep.categorizeServers, RStep.getTracked, RStep.getReview,
            RStep.findUntracked], RegOutcome.exitNoServers)
      ∧ RStep.contactMapping ∉ (respExecuteTasks [] [] [] []).1 :=
  C6_fatal_conditions.2.2 [] [] [] [] (by decide)

/-- Claim C7 (confirmed): a server whose connection succeeds but whose query
returns no rows contributes its sentinel row to the output of each collection
loop, records no error, and is not omitted. -/
theorem C7_empty_result_sentinels :
    (∀ (servers : List (List Char)) (outcome : List Char → DbOutcome)
        (e0 : List (List Char)) (s : List Char),
        s ∈ servers → outcome s = DbOutcome.ok [] →
        (s ++ (",No database found".toList)) ∈ (retrieve_dbs servers outcome e0).1
          ∧ retrieveErrLine outcome s = none)
    ∧ (∀ (servers : List (List Char)) (outcome : List Char → Outcome08) (s : List Char),
        s ∈ servers → outcome s = Outcome08.ok [] →
        (s ++ (",No user databases".toList)) ∈ (userDbLoop servers outcome).1
          ∧ err08 outcome s = none)
    ∧ (∀ (details : List RespDetail) (outcome : List Char → RespOutcome)
        (d : RespDetail) (ver clu : List Char),
        d ∈ details → outcome d.server = RespOutcome.ok ver clu [] →
        [d.server, ("No user database found".toList), d.nm, d.email, d.env, ver, clu]
          ∈ respCollectLoop details outcome) := by
  refine ⟨?_, ?_, ?_⟩
  · intro servers outcome e0 s hs hok
    refine ⟨?_, by simp [retrieveErrLine, hok]⟩
    have h1 : (retrieve_dbs servers outcome e0).1
        = servers.flatMap (retrieveDbLines outcome) := by
      unfold retrieve_dbs
      rw [retrieve_dbs_foldl]
      simp
    rw [h1]
    exact List.mem_flatMap.mpr ⟨s, hs, by simp [retrieveDbLines, hok]⟩
  · intro servers outcome s hs hok
    refine ⟨?_, by simp [err08, hok]⟩
    have h1 : (userDbLoop servers outcome).1 = servers.flatMap (lines08 outcome) := by
      unfold userDbLoop
      rw [userDbLoop_foldl]
      simp
    rw [h1]
    exact List.mem_flatMap.mpr ⟨s, hs, by simp [lines08, hok]⟩
  · intro details outcome d ver clu hd hok
    have h1 : respCollectLoop details outcome = details.flatMap (respContrib outcome) :=
      respCollectLoop_foldl details outcome []
    rw [h1]
    exact List.mem_flatMap.mpr ⟨d, hd, by simp [respContrib, hok]⟩

/-- Claim C7, witness: single-server instances of all three loops with empty
query results. -/
theorem C7_witness :
    ((("S1".toList) ++ (",No database found".toList))
        ∈ (retrieve_dbs [("S1".toList)] (fun _ => DbOutcome.ok []) []).1
      ∧ retrieveErrLine (fun _ => DbOutcome.ok []) ("S1".toList) = none)
    ∧ ((("S2".toList) ++ (",No user databases".toList))
        ∈ (userDbLoop [("S2".toList)] (fun _ => Outcome08.ok [])).1
      ∧ err08 (fun _ => Outcome08.ok []) ("S2".toList) = none)
    ∧ ([("S3".toList), ("No user database found".toList), ("n".toList), ("e".toList),
        ("v".toList), ("ver".toList), ("c".toList)]
        ∈ respCollectLoop [⟨("S3".toList), ("n".toList), ("e".toList), ("v".toList)⟩]
            (fun _ => RespOutcome.ok ("ver".toList) ("c".toList) [])) :=
  ⟨C7_empty_result_sentinels.1 [("S1".toList)] (fun _ => DbOutcome.ok []) []
      ("S1".toList) (by decide) rfl,
   C7_empty_result_sentinels.2.1 [("S2".toList)] (fun _ => Outcome08.ok [])
      ("S2".toList) (by decide) rfl,
   C7_empty_result_sentinels.2.2
      [⟨("S3".toList), ("n".toList), ("e".toList), ("v".toList)⟩]
      (fun _ => RespOutcome.ok ("ver".toList) ("c".toList) [])
      ⟨("S3".toList), ("n".toList), ("e".toList), ("v".toList)⟩
      ("ver".toList) ("c".toList) (by decide) rfl⟩

/-- Claim C8 (confirmed): for a well-formed comma-delimited dataset,
`convert_to_csv` and the merged-dataset write/read round-trip both preserve
the rows exactly — in particular the number of data rows and the
left-to-right cell order of every row. -/
theorem C8_csv_roundtrip :
    (∀ rows : List (List (List Char)), wellFormedCsv rows →
        parseCsvSkipInit (writeCsvLines rows) = rows
        ∧ parseCsvRaw (convert_to_csv (writeCsvLines rows)) = rows
        ∧ (parseCsvRaw (convert_to_csv (writeCsvLines rows))).length = rows.length)
    ∧ (∀ (cols : List (List Char)) (drows : List (List (List Char))),
        wellFormedCsv (cols :: drows) →
        readCsvHeader (writeCsvLines (cols :: drows)) = some (cols, drows)) := by
  constructor
  · intro rows hwf
    have h1 := parseCsvSkipInit_writeCsvLines rows hwf
    have h2 : convert_to_csv (writeCsvLines rows) = writeCsvLines rows := by
      unfold convert_to_csv
      rw [h1]
    have h3 : parseCsvRaw (convert_to_csv (writeCsvLines rows)) = rows := by
      rw [h2]
      exact parseCsvRaw_writeCsvLines rows hwf
    exact ⟨h1, h3, by rw [h3]⟩
  · intro cols drows hwf
    unfold readCsvHeader
    rw [parseCsvRaw_writeCsvLines _ hwf]

/-- Claim C8, witness: a two-by-two dataset round-trips through both reads. -/
theorem C8_witness :
    (parseCsvSkipInit (writeCsvLines [[("a".toList), ("b".toList)],
          [("c".toList), ("d".toList)]])
        = [[("a".toList), ("b".toList)], [("c".toList), ("d".toList)]]
      ∧ parseCsvRaw (convert_to_csv (writeCsvLines [[("a".toList), ("b".toList)],
          [("c".toList), ("d".toList)]]))
        = [[("a".toList), ("b".toList)], [("c".toList), ("d".toList)]]
      ∧ (parseCsvRaw (convert_to_csv (writeCsvLines [[("a".toList), ("b".toList)],
          [("c".toList), ("d".toList)]]))).length
        = [[("a".toList), ("b".toList)], [("c".toList), ("d".toList)]].length)
    ∧ readCsvHeader (writeCsvLines ([("a".toList), ("b".toList)]
          :: [[("c".toList), ("d".toList)]]))
        = some ([("a".toList), ("b".toList)], [[("c".toList), ("d".toList)]]) :=
  ⟨C8_csv_roundtrip.1 [[("a".toList), ("b".toList)], [("c".toList), ("d".toList)]]
      (by decide),
   C8_csv_roundtrip.2 [("a".toList), ("b".toList)] [[("c".toList), ("d".toList)]]
      (by decide)⟩

/-- Claim C9 (confirmed): because `RESPONSIBLE_PERSON_NAMES` is empty,
`empty_resp_name` is `0` and every run reaching a non-empty untracked list
takes the critical-contacts exit; the contact-mapping, fact-collection and
INSERT-generation steps are unreachable. -/
theorem C9_critical_contacts_always :
    ∀ ad t o r : List (List Char),
      untrackedOf (nonClusterObjects ad) t o r ≠ [] →
      respExecuteTasks ad t o r
          = ([RStep.readAd, RStep.categorizeServers, RStep.getTracked, RStep.getReview,
              RStep.findUntracked], RegOutcome.exitCriticalContacts)
        ∧ RStep.contactMapping ∉ (respExecuteTasks ad t o r).1
        ∧ RStep.collectFacts ∉ (respExecuteTasks ad t o r).1
        ∧ RStep.genInsertCommands ∉ (respExecuteTasks ad t o r).1 := by
  intro ad t o r h
  have heq : respExecuteTasks ad t o r
      = ([RStep.readAd, RStep.categorizeServers, RStep.getTracked, RStep.getReview,
          RStep.findUntracked], RegOutcome.exitCriticalContacts) := by
    simp [respExecuteTasks, h, empty_resp_name, RESPONSIBLE_PERSON_NAMES]
  exact ⟨heq, by rw [heq]; decide, by rw [heq]; decide, by rw [heq]; decide⟩

/-- Claim C9, witness: a single candidate server triggers the
critical-contacts exit. -/
theorem C9_witness :
    respExecuteTasks [("SRA".toList)] [] [] []
        = ([RStep.readAd, RStep.categorizeServers, RStep.getTracked, RStep.getReview,
            RStep.findUntracked], RegOutcome.exitCriticalContacts)
      ∧ RStep.contactMapping ∉ (respExecuteTasks [("SRA".toList)] [] [] []).1
      ∧ RStep.collectFacts ∉ (respExecuteTasks [("SRA".toList)] [] [] []).1
      ∧ RStep.genInsertCommands ∉ (respExecuteTasks [("SRA".toList)] [] [] []).1 :=
  C9_critical_contacts_always [("SRA".toList)] [] [] [] (by decide)

/-- Claim C10 (confirmed): `retrieve_dbs` writes the whole `conn_error`
accumulator to the failures file and `olap_databases` appends the whole
(extended) accumulator again, so every error recorded during `retrieve_dbs`
occurs at least twice in the failures file and in the reported failure
list. -/
theorem C10_retrieve_errors_reported_twice :
    ∀ (sqlServers olapServers : List (List Char)) (out1 : List Char → DbOutcome)
      (out2 : List Char → OlapOutcome) (e : List Char),
      e ∈ (retrieve_dbs sqlServers out1 []).2 →
      2 ≤ (connectionFailuresFile sqlServers olapServers out1 out2).count e
        ∧ 2 ≤ (reporting (connectionFailuresFile sqlServers olapServers out1 out2)).count e
          := by
  intro s1 s2 out1 out2 e he
  have ho : (olap_databases s2 out2 ((retrieve_dbs s1 out1 []).2)).2
      = (retrieve_dbs s1 out1 []).2 ++ s2.filterMap (olapErrLine out2) := by
    unfold olap_databases
    rw [olap_databases_foldl]
  have hfile : connectionFailuresFile s1 s2 out1 out2
      = (retrieve_dbs s1 out1 []).2
        ++ ((retrieve_dbs s1 out1 []).2 ++ s2.filterMap (olapErrLine out2)) := by
    unfold connectionFailuresFile
    simp only []
    rw [ho]
  have hpos : 0 < ((retrieve_dbs s1 out1 []).2).count e := List.count_pos_iff.mpr he
  have hcount : (connectionFailuresFile s1 s2 out1 out2).count e
      = ((retrieve_dbs s1 out1 []).2).count e
        + (((retrieve_dbs s1 out1 []).2).count e
            + (s2.filterMap (olapErrLine out2)).count e) := by
    rw [hfile, List.count_append, List.count_append]
  constructor
  · rw [hcount]
    omega
  · rw [reporting, hcount]
    omega

/-- Claim C10, witness: one failing SQL server and no OLAP servers; its error
record is counted twice in the failures file. -/
theorem C10_witness :
    2 ≤ (connectionFailuresFile [("S1".toList)] []
          (fun _ => DbOutcome.odbcErr ("x".toList))
          (fun _ => OlapOutcome.ok [])).count (("S1 - ODBC Error - x".toList))
      ∧ 2 ≤ (reporting (connectionFailuresFile [("S1".toList)] []
          (fun _ => DbOutcome.odbcErr ("x".toList))
          (fun _ => OlapOutcome.ok []))).count (("S1 - ODBC Error - x".toList)) :=
  C10_retrieve_errors_reported_twice [("S1".toList)] []
    (fun _ => DbOutcome.odbcErr ("x".toList)) (fun _ => OlapOutcome.ok [])
    (("S1 - ODBC Error - x".toList)) (by decide)
